import Mathlib

/-!
Shallow embedding of the wic support layer (src/wic/misc.py and
src/bb/utils.py): the BitBake variable cache (class BitbakeVars) and the
native command dispatch path (runtool, _exec_cmd, find_executable,
exec_native_cmd).

Modelling conventions:
  * Python strings are Lean String; helper functions named py... reproduce
    the exact Python string primitives used by the source (split, strip,
    substring membership, truthiness, os.path helpers).
  * The filesystem is an explicit oracle record FS (isfile, isdir, listdir,
    file contents as a list of lines without their trailing newline, which
    is exactly what the anchored regex and the line iteration observe).
  * Shell execution is an oracle run : String to Int x String giving the
    exit code of the child and its combined decoded stdout+stderr, matching
    runtool for shell=True commands; executable search (shutil.which) is an
    oracle which : String to String to Option String.
  * exec_native_cmd reads three variables through the BB_VARS singleton
    (get_bitbake_var); these reads are abstracted as an oracle
    env : String to Option String giving the value each lookup returns.
  * Python exceptions are the error side of Except; WicError carries its
    message, and an out-of-range subscript is indexError.
-/

inductive PyErr where
  | wicError (msg : String)
  | indexError
deriving DecidableEq

/-- Is one list of characters a prefix of another (Boolean, executable). -/
def listPre : List Char → List Char → Bool
  | [], _ => true
  | _ :: _, [] => false
  | a :: as, b :: bs => a = b && listPre as bs

/-- Is the first list an infix of the second (Boolean, executable). -/
def listInf (n h : List Char) : Bool :=
  match h with
  | [] => n.isEmpty
  | _ :: t => listPre n h || listInf n t

/-- Python `needle in hay` on strings: substring containment. -/
def pyIn (needle hay : String) : Bool :=
  listInf needle.toList hay.toList

/-- Python str.startswith. -/
def pyStarts (s pre : String) : Bool :=
  listPre pre.toList s.toList

/-- Python str.endswith. -/
def pyEnds (s suf : String) : Bool :=
  listPre suf.toList.reverse s.toList.reverse

/-- The ASCII whitespace characters recognised by Python str.split() and
str.strip() (space, tab, newline, carriage return, vertical tab, form feed). -/
def pySpace (c : Char) : Bool :=
  c = ' ' || c = '\t' || c = '\n' || c = '\r' || c = Char.ofNat 11 || c = Char.ofNat 12

/-- The double quote character. -/
def quoteChar : Char := Char.ofNat 34

/-- Python str.strip() : drop whitespace from both ends. -/
def pyStripWS (s : String) : String :=
  String.mk (((s.toList.dropWhile pySpace).reverse.dropWhile pySpace).reverse)

/-- Python str.strip(given the double quote): drop ALL leading and trailing
double quote characters (not just one pair). -/
def pyStripQuotes (s : String) : String :=
  String.mk (((s.toList.dropWhile (fun c => c = quoteChar)).reverse.dropWhile
      (fun c => c = quoteChar)).reverse)

/-- Accumulator pass behind pySplitWS: split into maximal runs of
non-whitespace, discarding empty tokens, exactly like Python str.split(). -/
def wsSplitAux : List Char → List Char → List (List Char)
  | [], acc => if acc.isEmpty then [] else [acc.reverse]
  | c :: rest, acc =>
    if pySpace c then
      if acc.isEmpty then wsSplitAux rest []
      else acc.reverse :: wsSplitAux rest []
    else wsSplitAux rest (c :: acc)

/-- Python str.split() with no argument. -/
def pySplitWS (s : String) : List String :=
  (wsSplitAux s.toList []).map (fun l => String.mk l)

/-- Split a character list at every semicolon, keeping empty pieces,
like Python str.split(single separator). -/
def splitSemis : List Char → List (List Char)
  | [] => [[]]
  | c :: rest =>
    let r := splitSemis rest
    if c = ';' then [] :: r
    else
      match r with
      | [] => [[c]]
      | h :: t => (c :: h) :: t

/-- Python cmd.split(semicolon). -/
def pySplitSemi (s : String) : List String :=
  (splitSemis s.toList).map (fun l => String.mk l)

/-- Python truthiness of an optional string: None and the empty string are
falsy, every other string is truthy. -/
def pyTruthy : Option String → Bool
  | none => false
  | some s => decide (s ≠ "")

/-- Python `a or b` on optional strings, keeping the optional type. -/
def pyOrO (a b : Option String) : Option String :=
  if pyTruthy a then a else b

/-- Python `a or b` where the fallback is a plain string. -/
def pyOrS (a : Option String) (b : String) : String :=
  if pyTruthy a then a.getD "" else b

/-- Python percent-s formatting of a value that may be None. -/
def pyFmt : Option String → String
  | none => "None"
  | some s => s

/-- os.path.basename: the part after the last slash. -/
def pyBasename (p : String) : String :=
  String.mk ((p.toList.reverse.takeWhile (fun c => ¬ c = '/')).reverse)

/-- First component of os.path.splitext: cut at the last dot of the last
path component, unless every character before that dot (within the
component) is itself a dot. -/
def splitextStem (p : String) : String :=
  let cs := p.toList
  let name := (cs.reverse.takeWhile (fun c => ¬ c = '/')).reverse
  let dir := cs.take (cs.length - name.length)
  let afterRev := name.reverse.dropWhile (fun c => ¬ c = '.')
  if afterRev.isEmpty then p
  else
    let stem := (afterRev.drop 1).reverse
    if stem.any (fun c => ¬ c = '.') then String.mk (dir ++ stem) else p

/-- os.path.join for two components, as used by get_var. -/
def pjoin (d f : String) : String :=
  if pyStarts f "/" then f
  else if d = "" ∨ pyEnds d "/" then d ++ f
  else d ++ ("/" ++ f)

/-- The NATIVE_RECIPES table of src/wic/misc.py: executable to recipe. -/
def NATIVE_RECIPES : List (String × String) :=
  [("bmaptool", "bmaptool"),
   ("dumpe2fs", "e2fsprogs"),
   ("grub-mkimage", "grub-efi"),
   ("isohybrid", "syslinux"),
   ("mcopy", "mtools"),
   ("mdel", "mtools"),
   ("mdeltree", "mtools"),
   ("mdir", "mtools"),
   ("mkdosfs", "dosfstools"),
   ("mkisofs", "cdrtools"),
   ("mkfs.btrfs", "btrfs-tools"),
   ("mkfs.erofs", "erofs-utils"),
   ("mkfs.ext2", "e2fsprogs"),
   ("mkfs.ext3", "e2fsprogs"),
   ("mkfs.ext4", "e2fsprogs"),
   ("mkfs.vfat", "dosfstools"),
   ("mksquashfs", "squashfs-tools"),
   ("mkswap", "util-linux"),
   ("mmd", "mtools"),
   ("parted", "parted"),
   ("sfdisk", "util-linux"),
   ("sgdisk", "gptfdisk"),
   ("syslinux", "syslinux"),
   ("tar", "tar")]

/-- NATIVE_RECIPES.get(prog): dictionary lookup in the recipe table. -/
def lookupRecipe (prog : String) : Option String :=
  (NATIVE_RECIPES.find? (fun p => decide (p.1 = prog))).map (fun p => p.2)

/-- One per-image variable submap (a Python dict of string to string),
as an association list whose first binding for a key wins. -/
abbrev Submap := List (String × String)

/-- The two-level store behind BitbakeVars (a defaultdict keyed by image
name, where the absent/default key is none). -/
abbrev Store := List (Option String × Submap)

/-- dict.get on a submap. -/
def subGet : Submap → String → Option String
  | [], _ => none
  | (a, b) :: rest, k => if a = k then some b else subGet rest k

/-- dict item assignment on a submap. -/
def subSet : Submap → String → String → Submap
  | [], k, v => [(k, v)]
  | (a, b) :: rest, k, v =>
    if a = k then (k, v) :: rest else (a, b) :: subSet rest k v

/-- Read a key of the store without the defaultdict side effect. -/
def storeGet : Store → Option String → Option Submap
  | [], _ => none
  | (a, b) :: rest, k => if a = k then some b else storeGet rest k

/-- dict item assignment on the store. -/
def storeSet : Store → Option String → Submap → Store
  | [], k, m => [(k, m)]
  | (a, b) :: rest, k, m =>
    if a = k then (k, m) :: rest else (a, b) :: storeSet rest k m

/-- Python `key in self` for the store. -/
def storeMem (st : Store) (k : Option String) : Bool :=
  (storeGet st k).isSome

/-- dict.pop(key, None): remove the binding for a key, if present. -/
def storePop : Store → Option String → Store
  | [], _ => []
  | (a, b) :: rest, k =>
    if a = k then storePop rest k else (a, b) :: storePop rest k

/-- defaultdict item read self[key]: return the submap for the key, after
inserting an empty submap when the key is absent (the observable side
effect of defaultdict.__getitem__). -/
def storeGetD (st : Store) (k : Option String) : Submap × Store :=
  match storeGet st k with
  | some m => (m, st)
  | none => ([], storeSet st k [])

/-- Number of truthy keys of the store: len of the list comprehension
`[key for key in self if key]` in get_var. -/
def truthyKeyCount (st : Store) : Nat :=
  ((st.map (fun p => p.1)).filter pyTruthy).length

/-- The character class of the variable-name group of the regex
`^([a-zA-Z0-9\-_+./~]+)=(.*)` used by BitbakeVars._parse_line. -/
def isIdentChar (c : Char) : Bool :=
  c.isAlpha || c.isDigit || c = '-' || c = '_' || c = '+' || c = '.' ||
  c = '/' || c = '~'

/-- matcher.match(line).groups() for the _parse_line regex: the greedy
one-or-more group of identifier characters must be the maximal identifier
prefix of the line (nonempty) and must be followed by an equals sign; the
second group is the rest of the line.  Returns none when the regex does
not match; the separate `"=" not in line` early return of _parse_line is
behaviourally subsumed, since the regex itself demands an equals sign. -/
def matchVarLine (line : String) : Option (String × String) :=
  let cs := line.toList
  let name := cs.takeWhile isIdentChar
  match name, cs.dropWhile isIdentChar with
  | [], _ => none
  | _ :: _, c :: tail =>
    if c = '=' then some (String.mk (cs.takeWhile isIdentChar), String.mk tail) else none
  | _ :: _, [] => none

/-- BitbakeVars._parse_line: on a regex match, store
self[image][key] = val.strip(double quote); otherwise leave the store
unchanged.  The defaultdict read self[image] yields the existing submap or
a fresh empty one. -/
def parse_line (st : Store) (line : String) (image : Option String) : Store :=
  match matchVarLine line with
  | none => st
  | some kv =>
    storeSet st image (subSet ((storeGet st image).getD []) kv.1 (pyStripQuotes kv.2))

/-- Filesystem oracle: the os.path and io facts get_var consults.
readLines gives the lines of a file without their trailing newline, which
is what the anchored regex of _parse_line observes on each iterated line. -/
structure FS where
  isFile : String → Bool
  isDir : String → Bool
  listdir : String → List String
  readLines : String → List String

/-- The BitbakeVars container: the two-level store plus the two externally
assigned attributes. -/
structure BitbakeVars where
  store : Store
  default_image : Option String
  vars_dir : Option String
deriving DecidableEq

/-- Message of the WicError raised when vars_dir is unset. -/
def envNotProvidedMsg : String :=
  "BitBake environment not provided. Run \x27bitbake -c rootfs_wicenv <image>\x27 and pass --vars /path/to/<image>.env to wic."

/-- Message of the WicError raised for a directory with no .env files. -/
def noEnvMsg (d : String) : String :=
  "No .env files found in " ++ (d ++ ". Run \x27bitbake -c rootfs_wicenv <image>\x27 to generate one.")

/-- Message of the WicError raised for a directory with several .env files
when no image key is available. -/
def multiEnvMsg (d : String) : String :=
  "Multiple .env files found in " ++ (d ++ ". Select one with --image-name or point --vars to the specific file.")

/-- Message of the WicError raised when vars_dir is neither file nor dir. -/
def noPathMsg (d : String) : String :=
  "The supplied vars path " ++ (d ++ " does not exist.")

/-- Message of the WicError raised when the resolved vars file is missing. -/
def couldntGetMsg (v src key : String) : String :=
  "Couldn\x27t get bitbake variable " ++ (v ++ (" from " ++ (src ++
    (". Generate the vars file with \x27bitbake -c rootfs_wicenv " ++
      (key ++ "\x27 and pass it to wic using --vars.")))))

/-- The .env entries of a variable-source directory:
`[f for f in os.listdir(env_source) if f.endswith(".env")]`. -/
def envFilesOf (fs : FS) (d : String) : List String :=
  (fs.listdir d).filter (fun f => pyEnds f ".env")

/-- The branch of get_var that resolves vars_dir to a concrete .env file
name and an image key: single-file source, directory source with a known
image key, directory source requiring exactly one .env entry, or failure.
Returns (fname, image_key). -/
def resolveSource (fs : FS) (env_source : String) (image : Option String) :
    Except PyErr (Option String × Option String) :=
  if fs.isFile env_source then
    .ok (some env_source,
      if pyTruthy image then image else some (splitextStem (pyBasename env_source)))
  else if fs.isDir env_source then
    if pyTruthy image then
      .ok (some (pjoin env_source (image.getD "" ++ ".env")), image)
    else
      match envFilesOf fs env_source with
      | [f] => .ok (some (pjoin env_source f), some (splitextStem f))
      | [] => .error (.wicError (noEnvMsg env_source))
      | _ => .error (.wicError (multiEnvMsg env_source))
  else .error (.wicError (noPathMsg env_source))

/-- The `if image not in self:` block of BitbakeVars.get_var: populate the
store from the resolved .env file when the resolved image key has no submap
yet, mirroring the single populated truthy key to the default key when
caching.  Returns the image_key local and the updated store. -/
def populateIfNeeded (bv : BitbakeVars) (fs : FS) (v : String)
    (image : Option String) (cache : Bool) : Except PyErr (Option String × Store) :=
  if storeMem bv.store image then .ok (image, bv.store)
  else if pyTruthy bv.vars_dir = false then .error (.wicError envNotProvidedMsg)
  else
    let env_source := bv.vars_dir.getD ""
    match resolveSource fs env_source image with
    | .error e => .error e
    | .ok fk =>
      if pyTruthy fk.1 = false ∨ fs.isFile (fk.1.getD "") = false then
        .error (.wicError (couldntGetMsg v (pyOrS fk.1 env_source) (pyOrS fk.2 "<image>")))
      else
        let st1 := (fs.readLines (fk.1.getD "")).foldl
          (fun s l => parse_line s l fk.2) bv.store
        if cache then
          if truthyKeyCount st1 = 1 then
            let ms := storeGetD st1 fk.2
            .ok (fk.2, storeSet ms.2 none ms.1)
          else .ok (fk.2, st1)
        else .ok (fk.2, st1)

/-- BitbakeVars.get_var(var, image, cache): resolve the image argument
against default_image with Python `or`, populate on a miss, read
self[key].get(var) through the defaultdict, and evict the resolved key
when cache is false.  Returns the value (or none) and the updated
container. -/
def get_var (bv : BitbakeVars) (fs : FS) (v : String) (image0 : Option String)
    (cache : Bool) : Except PyErr (Option String × BitbakeVars) :=
  let image := pyOrO image0 bv.default_image
  match populateIfNeeded bv fs v image cache with
  | .error e => .error e
  | .ok ks =>
    let key := if storeMem ks.2 image then image else ks.1
    let ms := storeGetD ks.2 key
    let st2 := if cache then ms.2 else storePop ms.2 key
    .ok (subGet ms.1 v, { store := st2, default_image := bv.default_image, vars_dir := bv.vars_dir })

/-- get_bitbake_var: the module-level wrapper delegating to the BB_VARS
singleton method get_var. -/
def get_bitbake_var (bv : BitbakeVars) (fs : FS) (v : String)
    (image : Option String) (cache : Bool) : Except PyErr (Option String × BitbakeVars) :=
  get_var bv fs v image cache

/-- The BB_VARS singleton as initially constructed: empty store, no
default image, no vars_dir. -/
def BB_VARS_init : BitbakeVars :=
  { store := [], default_image := none, vars_dir := none }

/-- Result of find_executable: Python True (recipe assumed provided), or
the result of shutil.which (a path or None). -/
inductive FindResult where
  | assumed
  | searched (r : Option String)
deriving DecidableEq

/-- Python truthiness of the find_executable result, as tested by the
`if find_executable(...)` branch of exec_native_cmd. -/
def FindResult.truthy : FindResult → Bool
  | .assumed => true
  | .searched r => pyTruthy r

/-- find_executable(cmd, paths): map the program through NATIVE_RECIPES,
read ASSUME_PROVIDED through the variable oracle, report True when
recipe-native occurs in it as a substring, and otherwise fall back to the
shutil.which oracle over the given paths. -/
def find_executable (cmd paths : String) (env : String → Option String)
    (which : String → String → Option String) : FindResult :=
  let recipe := (lookupRecipe cmd).getD cmd
  match env "ASSUME_PROVIDED" with
  | some provided =>
    if provided ≠ "" ∧ pyIn (recipe ++ "-native") provided then .assumed
    else .searched (which cmd paths)
  | none => .searched (which cmd paths)

/-- Message of the WicError raised by _exec_cmd on a nonzero exit code. -/
def execCmdFailMsg (cmd : String) (ret : Int) (out : String) : String :=
  "_exec_cmd: " ++ (cmd ++ (" returned \x27" ++ (toString ret ++
    ("\x27 instead of 0\noutput: " ++ out))))

/-- _exec_cmd(cmd, as_shell=True): run the command line through the shell
oracle, strip the combined output, raise WicError on any nonzero exit code
and otherwise return (0, output). -/
def exec_cmd_shell (cmd : String) (run : String → Int × String) :
    Except PyErr (Int × String) :=
  let p := run cmd
  let out := pyStripWS p.2
  if p.1 ≠ 0 then .error (.wicError (execCmdFailMsg cmd p.1 out))
  else .ok (p.1, out)

/-- The restricted search path exec_native_cmd builds from the sysroot and
the HOSTTOOLS_DIR and TARGET_SYS variables (a missing variable prints as
None, exactly as Python percent-formatting of None does). -/
def nativePaths (ns : String) (env : String → Option String) : String :=
  ns ++ "/sbin:" ++ ns ++ "/usr/sbin:" ++ ns ++ "/usr/bin:" ++
  ns ++ "/usr/bin/" ++ pyFmt (env "TARGET_SYS") ++ ":" ++ ns ++ "/bin:" ++
  pyFmt (env "HOSTTOOLS_DIR")

/-- The pseudo-prefixed command line (`cmd_and_args = pseudo + cmd_and_args`
when pseudo is truthy). -/
def pyPseudoCmd (pseudo cl : String) : String :=
  if pseudo ≠ "" then pseudo ++ cl else cl

/-- The full shell command exec_native_cmd executes: a PATH export
statement prefixed to the (possibly pseudo-prefixed) original command. -/
def nativeCmd (ns pseudo cl : String) (env : String → Option String) : String :=
  "export PATH=" ++ (nativePaths ns env ++ (":$PATH;" ++ pyPseudoCmd pseudo cl))

/-- The synthesized output of exec_native_cmd for a program that the
availability check does not find. -/
def cantFindMsg (prog paths : String) : String :=
  "can\x27t find native executable " ++ (prog ++ (" in " ++ paths))

/-- The command-not-found message of the pseudo wrapper matched by
exec_native_cmd. -/
def pseudoNotFoundMsg (prog : String) : String :=
  "Can\x27t find \x27" ++ (prog ++ "\x27 in $PATH.")

/-- Recipe-dependent tail of the missing-native-tool diagnostic. -/
def recipeHint (prog : String) : String :=
  match lookupRecipe prog with
  | some recipe =>
    "Please make sure wic-tools have " ++ (recipe ++
      "-native in its DEPENDS, build it with \x27bitbake wic-tools\x27 and try again.\n")
  | none =>
    "Wic failed to find a recipe to build native " ++ (prog ++
      ". Please file a bug against wic.\n")

/-- Message of the WicError raised for a missing native tool. -/
def nativeMissingMsg (prog : String) : String :=
  "A native program " ++ (prog ++
    (" required to build the image was not found (see details above).\n\n" ++
      recipeHint prog))

/-- exec_native_cmd(cmd_and_args, native_sysroot, pseudo): take the first
whitespace token of the final semicolon-separated segment as the program
name (an empty final segment makes args[0] an out-of-range subscript),
check availability via find_executable over the constructed search path,
execute the full PATH-export-prefixed command through _exec_cmd when
available or synthesize exit code 127 when not, and classify exit code 127
(or the pseudo not-found pattern with exit code 1) as a missing native
tool. -/
def exec_native_cmd (cl ns pseudo : String) (env : String → Option String)
    (which : String → String → Option String) (run : String → Int × String) :
    Except PyErr (Int × String) :=
  match pySplitWS ((pySplitSemi cl).getLastD "") with
  | [] => .error .indexError
  | prog :: _ =>
    let paths := nativePaths ns env
    let step : Except PyErr (Int × String) :=
      if (find_executable prog paths env which).truthy then
        exec_cmd_shell (nativeCmd ns pseudo cl env) run
      else .ok (127, cantFindMsg prog paths)
    match step with
    | .error e => .error e
    | .ok ro =>
      if ro.1 = 127 ∨ (pseudo ≠ "" ∧ ro.1 = 1 ∧ ro.2 = pseudoNotFoundMsg prog) then
        .error (.wicError (nativeMissingMsg prog))
      else .ok ro

/-- A variable oracle with every variable unset. -/
def envNone : String → Option String := fun _ => none

/-- A which oracle that finds every program at a fixed path. -/
def whichYes : String → String → Option String := fun _ _ => some "/sr/usr/bin/tool"

/-- A which oracle that finds nothing. -/
def whichNo : String → String → Option String := fun _ _ => none

/-- A shell oracle whose child exits with code 2. -/
def runRC2 : String → Int × String := fun _ => (2, "boom")

/-- A shell oracle whose child exits with code 0. -/
def runRC0 : String → Int × String := fun _ => (0, " fine ")

/-- A fresh container configured with vars_dir /vars, as wic does after
option parsing. -/
def bvSeed : BitbakeVars :=
  { store := [], default_image := none, vars_dir := some "/vars" }

/-- Fixture: /vars is a directory holding the single file foo.env whose
content is the line A=1. -/
def fsV1 : FS :=
  { isFile := fun p => p == "/vars/foo.env"
    isDir := fun p => p == "/vars"
    listdir := fun p => if p == "/vars" then ["foo.env"] else []
    readLines := fun p => if p == "/vars/foo.env" then ["A=1"] else [] }

/-- Fixture: like fsV1, but foo.env now reads A=2 (the file was mutated
between two calls). -/
def fsV2 : FS :=
  { isFile := fun p => p == "/vars/foo.env"
    isDir := fun p => p == "/vars"
    listdir := fun p => if p == "/vars" then ["foo.env"] else []
    readLines := fun p => if p == "/vars/foo.env" then ["A=2"] else [] }

/-- Fixture: /vars holds two .env files, foo.env (A=1) and bar.env (A=9). -/
def fsV3 : FS :=
  { isFile := fun p => p == "/vars/foo.env" || p == "/vars/bar.env"
    isDir := fun p => p == "/vars"
    listdir := fun p => if p == "/vars" then ["foo.env", "bar.env"] else []
    readLines := fun p =>
      if p == "/vars/foo.env" then ["A=1"]
      else if p == "/vars/bar.env" then ["A=9"] else [] }

/-- Fixture: /vars is a directory with no .env entries at all. -/
def fsV0 : FS :=
  { isFile := fun _ => false
    isDir := fun p => p == "/vars"
    listdir := fun p => if p == "/vars" then ["README"] else []
    readLines := fun _ => [] }

/-- The exact text of src/bb/utils.py, line by line (apostrophes, double
quotes, and braces written as hexadecimal escapes).  The mkdirhier claim is
about this source text itself, since the guard line is not valid Python;
the embedding therefore carries the text verbatim so that its syntactic
defects can be stated and checked. -/
def bbUtilsLines : List String :=
  ["\x22\x22\x22",
   "Minimal subset of BitBake\x27s bb.utils used by standalone wic.",
   "\x22\x22\x22",
   "import os",
   "",
   "# from bitbake/lib/bb/utils.py",
   "def mkdirhier(path):",
   "    \x22\x22\x22Create a directory like \x27mkdir -p\x27, but does not complain if",
   "    directory already exists list ``os.makedirs()``.",
   "",
   "    Arguments:",
   "",
   "    - ``directory``: path to the directory.",
   "",
   "    No return value.",
   "    \x22\x22\x22",
   "    if \x27$\x7b\x27 in str(directory)",
   "        raise Exception(\x22Directory name \x7b\x7d contains unexpanded bitbake variable. This may cause build failures and WORKDIR polution.\x22.format(directory))",
   "    try:",
   "        os.makedirs(path, exist_ok=True)",
   "    except OSError as e:",
   "        if e.errno != errno.EEXIST or not os.path.isdir(directory):",
   "            raise e",
   ""]

/-- The guard line of mkdirhier, as written in the source. -/
def mkdirhierGuardLine : String := "    if \x27$\x7b\x27 in str(directory)"

/-- The def header of mkdirhier, as written in the source. -/
def mkdirhierDefLine : String := "def mkdirhier(path):"

/-- The exception-handler guard of mkdirhier, as written in the source. -/
def mkdirhierHandlerLine : String :=
  "        if e.errno != errno.EEXIST or not os.path.isdir(directory):"

/-- Substring containment as a proposition (hay contains needle). -/
def containsSub (hay needle : String) : Prop :=
  ∃ a b, hay = a ++ (needle ++ b)

/-- Whether an exec_native_cmd result is a normal return. -/
def isOkRC : Except PyErr (Int × String) → Bool
  | .ok _ => true
  | .error _ => false

/-- A variable oracle where only ASSUME_PROVIDED is set, listing
gptfdisk-native among the provided recipes. -/
def envAP : String → Option String :=
  fun v => if v == "ASSUME_PROVIDED" then some "gptfdisk-native quilt-native" else none

/-- String append acts as list append on the underlying data. -/
theorem str_data_append (a b : String) : (a ++ b).data = a.data ++ b.data := by
  cases a
  cases b
  rfl

/-- String append is associative. -/
theorem strAppend_assoc (a b c : String) : (a ++ b) ++ c = a ++ (b ++ c) := by
  cases a with
  | mk la =>
    cases b with
    | mk lb =>
      cases c with
      | mk lc =>
        show String.mk ((la ++ lb) ++ lc) = String.mk (la ++ (lb ++ lc))
        rw [List.append_assoc]

/-- Rebuilding a string from its data gives it back. -/
theorem str_mk_data (s : String) : String.mk s.data = s := by
  cases s
  rfl

/-- A nonempty string has nonempty data. -/
theorem str_data_ne_nil (s : String) (h : ¬ s = "") : ¬ s.data = [] := by
  intro hc
  apply h
  cases s with
  | mk l =>
    simp only at hc
    rw [show l = [] from hc]

/-- Appending to a nonempty string stays nonempty. -/
theorem strAppend_ne_empty_left (a b : String) (h : ¬ a = "") : ¬ a ++ b = "" := by
  intro hc
  have h2 : a.data ++ b.data = [] := by
    rw [← str_data_append]
    rw [hc]
  exact str_data_ne_nil a h (List.append_eq_nil.mp h2).1

/-- takeWhile over an all-satisfying left part passes it through. -/
theorem takeWhile_append_of_all {p : Char → Bool} (l t : List Char)
    (h : l.all p = true) : (l ++ t).takeWhile p = l ++ t.takeWhile p := by
  induction l with
  | nil => rfl
  | cons c cs ih =>
    simp only [List.all_cons, Bool.and_eq_true] at h
    simp [List.takeWhile_cons, h.1, ih h.2]

/-- dropWhile over an all-satisfying left part discards it. -/
theorem dropWhile_append_of_all {p : Char → Bool} (l t : List Char)
    (h : l.all p = true) : (l ++ t).dropWhile p = t.dropWhile p := by
  induction l with
  | nil => rfl
  | cons c cs ih =>
    simp only [List.all_cons, Bool.and_eq_true] at h
    simp [List.dropWhile_cons, h.1, ih h.2]

/-- Assigning a key then reading it gives the assigned value. -/
theorem subGet_subSet_self (m : Submap) (k v : String) :
    subGet (subSet m k v) k = some v := by
  induction m with
  | nil => simp [subSet, subGet]
  | cons p rest ih =>
    obtain ⟨a, b⟩ := p
    by_cases hak : a = k
    · simp [subSet, subGet, hak]
    · simp [subSet, subGet, hak, ih]

/-- Assigning a store key then reading it gives the assigned submap. -/
theorem storeGet_storeSet_self (st : Store) (k : Option String) (m : Submap) :
    storeGet (storeSet st k m) k = some m := by
  induction st with
  | nil => simp [storeSet, storeGet]
  | cons p rest ih =>
    obtain ⟨a, b⟩ := p
    by_cases hak : a = k
    · simp [storeSet, storeGet, hak]
    · simp [storeSet, storeGet, hak, ih]

/-- Assigning one store key leaves reads of other keys unchanged. -/
theorem storeGet_storeSet_ne (st : Store) (k j : Option String) (m : Submap)
    (h : ¬ j = k) : storeGet (storeSet st k m) j = storeGet st j := by
  have h2 : ¬ k = j := fun hc => h hc.symm
  induction st with
  | nil => simp [storeSet, storeGet, h2]
  | cons p rest ih =>
    obtain ⟨a, b⟩ := p
    by_cases hak : a = k
    · subst hak
      simp [storeSet, storeGet, h2]
    · by_cases haj : a = j
      · simp [storeSet, storeGet, hak, haj, h, h2]
      · simp [storeSet, storeGet, hak, haj, ih]

/-- Popping a key removes it from the store. -/
theorem storeGet_storePop_self (st : Store) (k : Option String) :
    storeGet (storePop st k) k = none := by
  induction st with
  | nil => simp [storePop, storeGet]
  | cons p rest ih =>
    obtain ⟨a, b⟩ := p
    by_cases hak : a = k
    · simp [storePop, hak, ih]
    · simp [storePop, storeGet, hak, ih]

/-- Popping one key leaves reads of other keys unchanged. -/
theorem storeGet_storePop_ne (st : Store) (k j : Option String)
    (h : ¬ j = k) : storeGet (storePop st k) j = storeGet st j := by
  have h2 : ¬ k = j := fun hc => h hc.symm
  induction st with
  | nil => simp [storePop]
  | cons p rest ih =>
    obtain ⟨a, b⟩ := p
    by_cases hak : a = k
    · subst hak
      simp [storePop, storeGet, h2, ih]
    · by_cases haj : a = j
      · simp [storePop, storeGet, hak, haj, h, h2]
      · simp [storePop, storeGet, hak, haj, ih]

/-- The defaultdict read leaves the read key present with the value read. -/
theorem storeGetD_get_self (st : Store) (k : Option String) :
    storeGet (storeGetD st k).2 k = some (storeGetD st k).1 := by
  unfold storeGetD
  cases hg : storeGet st k with
  | some m => simpa using hg
  | none => simp [storeGet_storeSet_self]

/-- The defaultdict read does not change membership of other keys. -/
theorem storeMem_storeGetD_ne (st : Store) (k j : Option String)
    (h : ¬ j = k) : storeMem (storeGetD st k).2 j = storeMem st j := by
  unfold storeGetD storeMem
  cases hg : storeGet st k with
  | some m => rfl
  | none => simp [storeGet_storeSet_ne st k j [] h]

/-- C10: for every command line whose final semicolon-separated segment has
no non-whitespace token, exec_native_cmd fails with an IndexError (not a
WicError) when it takes args[0], for every environment, search and run
oracle — so no process is ever executed. -/
theorem c10_empty_final_segment (cl ns pseudo : String)
    (env : String → Option String) (which : String → String → Option String)
    (run : String → Int × String)
    (hsegs : pySplitWS ((pySplitSemi cl).getLastD "") = []) :
    exec_native_cmd cl ns pseudo env which run = .error .indexError := by
  unfold exec_native_cmd
  rw [hsegs]

/-- C10 witness: the concrete command line `sgdisk x;` has an empty final
segment and raises IndexError. -/
theorem c10_empty_final_segment_witness :
    exec_native_cmd "sgdisk x;" "/sr" "" envNone whichNo runRC0 = .error .indexError :=
  c10_empty_final_segment "sgdisk x;" "/sr" "" envNone whichNo runRC0 (by rfl)

/-- C1 counterexample: a program that the search finds, whose execution
exits with code 2 (nonzero and not 127), makes exec_native_cmd raise the
generic _exec_cmd WicError instead of returning the raw exit code and
output, refuting the claim that nonzero-but-not-127 results are returned
to the caller. -/
theorem c1_nonzero_counterexample :
    exec_native_cmd "false x" "/sr" "" envNone whichYes runRC2
      = .error (.wicError
          (execCmdFailMsg (nativeCmd "/sr" "" "false x" envNone) 2 "boom")) ∧
    isOkRC (exec_native_cmd "false x" "/sr" "" envNone whichYes runRC2) = false :=
  ⟨rfl, rfl⟩

/-- C1 amended: for a command line whose program is found available, the
exit code and combined output reach the caller only when the exit code is
0; every nonzero exit code (127 or not) makes _exec_cmd raise a WicError
before exec_native_cmd can return, so a raw nonzero exit code is never
returned. -/
theorem c1_found_return (cl ns pseudo prog : String) (rest : List String)
    (env : String → Option String) (which : String → String → Option String)
    (run : String → Int × String) (ret : Int) (out : String)
    (hsegs : pySplitWS ((pySplitSemi cl).getLastD "") = prog :: rest)
    (hfound : (find_executable prog (nativePaths ns env) env which).truthy = true)
    (hrun : run (nativeCmd ns pseudo cl env) = (ret, out)) :
    (ret = 0 → exec_native_cmd cl ns pseudo env which run = .ok (0, pyStripWS out)) ∧
    (¬ ret = 0 → exec_native_cmd cl ns pseudo env which run
        = .error (.wicError
            (execCmdFailMsg (nativeCmd ns pseudo cl env) ret (pyStripWS out)))) := by
  unfold exec_native_cmd
  rw [hsegs]
  simp only [hfound, if_true]
  unfold exec_cmd_shell
  rw [hrun]
  constructor
  · intro h0
    subst h0
    norm_num
  · intro hne
    simp [hne]

/-- C1 witness: program found, exit code 0, padded output: the caller gets
back (0, stripped output), and the nonzero branch holds vacuously. -/
theorem c1_found_return_witness :
    ((0 : Int) = 0 →
      exec_native_cmd "true x" "/sr" "" envNone whichYes runRC0 = .ok (0, pyStripWS " fine ")) ∧
    (¬ (0 : Int) = 0 →
      exec_native_cmd "true x" "/sr" "" envNone whichYes runRC0
        = .error (.wicError
            (execCmdFailMsg (nativeCmd "/sr" "" "true x" envNone) 0 (pyStripWS " fine ")))) :=
  c1_found_return "true x" "/sr" "" "true" ["x"] envNone whichYes runRC0 0 " fine "
    (by rfl) (by rfl) (by rfl)

/-- C3: when the availability check fails (the program is not found by the
executable search over the constructed path and its recipe is not listed in
ASSUME_PROVIDED), exec_native_cmd raises a WicError whose message contains
the program name; when the program is a key of NATIVE_RECIPES the message
contains the providing recipe, and otherwise it asks the operator to file a
bug; in particular mkfs.ext4 maps to e2fsprogs and sgdisk to gptfdisk. -/
theorem c3_missing_native_tool (cl ns pseudo prog : String) (rest : List String)
    (env : String → Option String) (which : String → String → Option String)
    (run : String → Int × String)
    (hsegs : pySplitWS ((pySplitSemi cl).getLastD "") = prog :: rest)
    (hnot : (find_executable prog (nativePaths ns env) env which).truthy = false) :
    exec_native_cmd cl ns pseudo env which run
      = .error (.wicError (nativeMissingMsg prog)) ∧
    containsSub (nativeMissingMsg prog) prog ∧
    (∀ r, lookupRecipe prog = some r → containsSub (nativeMissingMsg prog) r) ∧
    (lookupRecipe prog = none →
      containsSub (nativeMissingMsg prog) "Please file a bug against wic") ∧
    lookupRecipe "mkfs.ext4" = some "e2fsprogs" ∧
    lookupRecipe "sgdisk" = some "gptfdisk" := by
  refine ⟨?_, ?_, ?_, ?_, rfl, rfl⟩
  · unfold exec_native_cmd
    rw [hsegs]
    simp [hnot]
  · exact ⟨"A native program ",
      " required to build the image was not found (see details above).\n\n" ++
        recipeHint prog, rfl⟩
  · intro r hr
    unfold nativeMissingMsg recipeHint
    rw [hr]
    refine ⟨"A native program " ++ (prog ++
      (" required to build the image was not found (see details above).\n\n" ++
        "Please make sure wic-tools have ")),
      "-native in its DEPENDS, build it with \x27bitbake wic-tools\x27 and try again.\n",
      ?_⟩
    simp only [← strAppend_assoc]
  · intro h0
    unfold nativeMissingMsg recipeHint
    rw [h0]
    have hsp : (". Please file a bug against wic.\n" : String)
        = ". " ++ ("Please file a bug against wic" ++ ".\n") := by decide
    rw [hsp]
    refine ⟨"A native program " ++ (prog ++
      (" required to build the image was not found (see details above).\n\n" ++
        ("Wic failed to find a recipe to build native " ++ (prog ++ ". ")))),
      ".\n", ?_⟩
    simp only [← strAppend_assoc]

/-- C3 witness: the concrete sgdisk scenario of the spec: ASSUME_PROVIDED
unset and sgdisk absent from the search path; the raised message names
recipe gptfdisk through the recipe-containment conjunct. -/
theorem c3_missing_native_tool_witness :
    exec_native_cmd "sgdisk -n 1:0:+10M disk.img" "/sr" "" envNone whichNo runRC0
      = .error (.wicError (nativeMissingMsg "sgdisk")) ∧
    containsSub (nativeMissingMsg "sgdisk") "sgdisk" ∧
    (∀ r, lookupRecipe "sgdisk" = some r →
      containsSub (nativeMissingMsg "sgdisk") r) ∧
    (lookupRecipe "sgdisk" = none →
      containsSub (nativeMissingMsg "sgdisk") "Please file a bug against wic") ∧
    lookupRecipe "mkfs.ext4" = some "e2fsprogs" ∧
    lookupRecipe "sgdisk" = some "gptfdisk" :=
  c3_missing_native_tool "sgdisk -n 1:0:+10M disk.img" "/sr" "" "sgdisk"
    ["-n", "1:0:+10M", "disk.img"] envNone whichNo runRC0 (by rfl) (by rfl)

/-- C6: when the recipe associated to the program occurs in the truthy
ASSUME_PROVIDED variable as recipe-native, find_executable answers True for
every which oracle (so no filesystem search over the constructed path can
influence the answer), exec_native_cmd behaves identically under any two
search oracles, and with a zero-exit run it succeeds. -/
theorem c6_assume_provided (cl ns pseudo prog : String) (rest : List String)
    (env : String → Option String) (p : String)
    (which1 which2 : String → String → Option String)
    (run : String → Int × String) (out : String)
    (hsegs : pySplitWS ((pySplitSemi cl).getLastD "") = prog :: rest)
    (hp : env "ASSUME_PROVIDED" = some p) (hpne : ¬ p = "")
    (hin : pyIn (((lookupRecipe prog).getD prog) ++ "-native") p = true) :
    (∀ which, find_executable prog (nativePaths ns env) env which = .assumed) ∧
    exec_native_cmd cl ns pseudo env which1 run
      = exec_native_cmd cl ns pseudo env which2 run ∧
    (run (nativeCmd ns pseudo cl env) = (0, out) →
      exec_native_cmd cl ns pseudo env which1 run = .ok (0, pyStripWS out)) := by
  have hfe : ∀ which : String → String → Option String,
      find_executable prog (nativePaths ns env) env which = .assumed := by
    intro which
    unfold find_executable
    rw [hp]
    simp [hpne, hin]
  refine ⟨hfe, ?_, ?_⟩
  · unfold exec_native_cmd
    rw [hsegs]
    simp only [hfe]
  · intro hrun
    unfold exec_native_cmd
    rw [hsegs]
    simp [hfe, FindResult.truthy, exec_cmd_shell, hrun]

/-- C6 witness: sgdisk with ASSUME_PROVIDED listing gptfdisk-native: the
availability answer is True for every search oracle, the result does not
depend on the search oracle, and a zero-exit run returns normally. -/
theorem c6_assume_provided_witness :
    (∀ which, find_executable "sgdisk" (nativePaths "/sr" envAP) envAP which = .assumed) ∧
    exec_native_cmd "sgdisk -Z disk.img" "/sr" "" envAP whichNo runRC0
      = exec_native_cmd "sgdisk -Z disk.img" "/sr" "" envAP whichYes runRC0 ∧
    (runRC0 (nativeCmd "/sr" "" "sgdisk -Z disk.img" envAP) = (0, " fine ") →
      exec_native_cmd "sgdisk -Z disk.img" "/sr" "" envAP whichNo runRC0
        = .ok (0, pyStripWS " fine ")) :=
  c6_assume_provided "sgdisk -Z disk.img" "/sr" "" "sgdisk" ["-Z", "disk.img"]
    envAP "gptfdisk-native quilt-native" whichNo whichYes runRC0 " fine "
    (by rfl) (by rfl) (by decide) (by rfl)

/-- C8: exec_native_cmd consults the run oracle only at the full
PATH-export-prefixed original command line (so the whole command line,
earlier export segments included, is what executes through the shell),
consults the search oracle only at the first token of the final
semicolon-separated segment paired with the constructed path (so the
program name for the availability lookup and diagnostics comes only from
the final segment), and the executed string is the PATH export statement
prefixed to the pseudo-prefixed original command line. -/
theorem c8_segment_asymmetry (cl ns pseudo prog : String) (rest : List String)
    (env : String → Option String)
    (hsegs : pySplitWS ((pySplitSemi cl).getLastD "") = prog :: rest) :
    (∀ (which : String → String → Option String) (run1 run2 : String → Int × String),
      run1 (nativeCmd ns pseudo cl env) = run2 (nativeCmd ns pseudo cl env) →
      exec_native_cmd cl ns pseudo env which run1
        = exec_native_cmd cl ns pseudo env which run2) ∧
    (∀ (which1 which2 : String → String → Option String) (run : String → Int × String),
      which1 prog (nativePaths ns env) = which2 prog (nativePaths ns env) →
      exec_native_cmd cl ns pseudo env which1 run
        = exec_native_cmd cl ns pseudo env which2 run) ∧
    (∃ pre, nativeCmd ns pseudo cl env = pre ++ pyPseudoCmd pseudo cl ∧
      pyPseudoCmd pseudo cl = (if ¬ pseudo = "" then pseudo ++ cl else cl)) := by
  refine ⟨?_, ?_, ?_⟩
  · intro which run1 run2 hr
    unfold exec_native_cmd
    rw [hsegs]
    simp only [exec_cmd_shell, hr]
  · intro which1 which2 run hw
    have hfe : find_executable prog (nativePaths ns env) env which1
        = find_executable prog (nativePaths ns env) env which2 := by
      unfold find_executable
      cases env "ASSUME_PROVIDED" with
      | none => rw [hw]
      | some provided =>
        by_cases hc : provided ≠ "" ∧ pyIn ((lookupRecipe prog).getD prog ++ "-native") provided = true
        · simp [hc]
        · simp only [if_neg hc, hw]
    unfold exec_native_cmd
    rw [hsegs]
    simp only [hfe]
  · refine ⟨"export PATH=" ++ (nativePaths ns env ++ ":$PATH;"), ?_, rfl⟩
    unfold nativeCmd
    simp only [← strAppend_assoc]

/-- C8 witness: for the command line with an export segment, result
invariance under run oracles agreeing on the full command, under search
oracles agreeing at the final-segment program, and the executed-string
decomposition, all hold at concrete inputs. -/
theorem c8_segment_asymmetry_witness :
    (∀ (which : String → String → Option String) (run1 run2 : String → Int × String),
      run1 (nativeCmd "/sr" "" "export FOO=1;ls -l" envNone)
        = run2 (nativeCmd "/sr" "" "export FOO=1;ls -l" envNone) →
      exec_native_cmd "export FOO=1;ls -l" "/sr" "" envNone which run1
        = exec_native_cmd "export FOO=1;ls -l" "/sr" "" envNone which run2) ∧
    (∀ (which1 which2 : String → String → Option String) (run : String → Int × String),
      which1 "ls" (nativePaths "/sr" envNone) = which2 "ls" (nativePaths "/sr" envNone) →
      exec_native_cmd "export FOO=1;ls -l" "/sr" "" envNone which1 run
        = exec_native_cmd "export FOO=1;ls -l" "/sr" "" envNone which2 run) ∧
    (∃ pre, nativeCmd "/sr" "" "export FOO=1;ls -l" envNone
        = pre ++ pyPseudoCmd "" "export FOO=1;ls -l" ∧
      pyPseudoCmd "" "export FOO=1;ls -l"
        = (if ¬ ("" : String) = "" then "" ++ "export FOO=1;ls -l" else "export FOO=1;ls -l")) :=
  c8_segment_asymmetry "export FOO=1;ls -l" "/sr" "" "ls" ["-l"] envNone (by rfl)

/-- C2 counterexample: the line A=(quote)(quote)x(quote)(quote) stores the
value x: Python str.strip removes ALL surrounding double quotes, not
exactly one pair, so the doubled-quote value does not keep its remaining
quote characters as the claim states (it would have to be
(quote)x(quote)). -/
theorem c2_doubled_quotes_counterexample :
    subGet ((storeGet (parse_line [] "A=\x22\x22x\x22\x22" (some "img")) (some "img")).getD [])
        "A" = some "x" ∧
    ¬ ("x" : String) = "\x22x\x22" ∧
    subGet ((storeGet (parse_line [] "B=\x22y" (some "img")) (some "img")).getD [])
        "B" = some "y" ∧
    ¬ ("y" : String) = "\x22y" := by
  refine ⟨rfl, by decide, rfl, by decide⟩

/-- C2 amended: for a well-formed line NAME=VALUE whose NAME is a nonempty
run of identifier characters, the stored value for NAME after parsing is
VALUE with ALL leading and trailing double-quote characters removed
(Python str.strip with the quote character): one enclosing pair is
removed, but doubled enclosing quotes and unpaired leading or trailing
quotes are removed as well. -/
theorem c2_strip_all_quotes (st : Store) (img name val : String)
    (hname : ¬ name = "") (hchars : name.data.all isIdentChar = true) :
    subGet ((storeGet (parse_line st (name ++ ("=" ++ val)) (some img)) (some img)).getD [])
        name = some (pyStripQuotes val) := by
  have hdata : (name ++ ("=" ++ val)).data = name.data ++ ('=' :: val.data) := by
    rw [str_data_append, str_data_append]
    rfl
  have htake : (name ++ ("=" ++ val)).data.takeWhile isIdentChar = name.data := by
    rw [hdata, takeWhile_append_of_all name.data ('=' :: val.data) hchars]
    simp [List.takeWhile_cons, isIdentChar]
  have hdrop : (name ++ ("=" ++ val)).data.dropWhile isIdentChar = '=' :: val.data := by
    rw [hdata, dropWhile_append_of_all name.data ('=' :: val.data) hchars]
    simp [List.dropWhile_cons, isIdentChar]
  have hmatch : matchVarLine (name ++ ("=" ++ val)) = some (name, val) := by
    unfold matchVarLine
    simp only [String.toList, htake, hdrop]
    cases hnd : name.data with
    | nil => exact absurd hnd (str_data_ne_nil name hname)
    | cons a l =>
      simp only [← hnd]
      simp [str_mk_data]
  unfold parse_line
  rw [hmatch]
  simp only
  rw [storeGet_storeSet_self]
  simp only [Option.getD_some]
  exact subGet_subSet_self _ _ _

/-- C2 witness: the spec scenario line IMAGE_ROOTFS=(quote)/tmp/rootfs(quote)
stores /tmp/rootfs with the one pair of quotes stripped. -/
theorem c2_strip_all_quotes_witness :
    subGet ((storeGet (parse_line [] ("IMAGE_ROOTFS" ++ ("=" ++ "\x22/tmp/rootfs\x22"))
        (some "core-image-minimal")) (some "core-image-minimal")).getD [])
      "IMAGE_ROOTFS" = some (pyStripQuotes "\x22/tmp/rootfs\x22") :=
  c2_strip_all_quotes [] "core-image-minimal" "IMAGE_ROOTFS" "\x22/tmp/rootfs\x22"
    (by decide) (by decide)

/-- A name ending in .env is nonempty. -/
theorem ne_empty_of_env_suffix (f : String) (h : pyEnds f ".env" = true) :
    ¬ f = "" := by
  intro hc
  subst hc
  exact absurd h (by decide)

/-- Joining a nonempty directory with a nonempty name is nonempty. -/
theorem pjoin_ne_empty (d f : String) (hd : ¬ d = "") (hf : ¬ f = "") :
    ¬ pjoin d f = "" := by
  unfold pjoin
  by_cases h1 : pyStarts f "/" = true
  · simp [h1, hf]
  · by_cases h2 : d = "" ∨ pyEnds d "/" = true
    · simp only [h1, Bool.false_eq_true, if_false, h2, if_true]
      exact strAppend_ne_empty_left d f hd
    · simp only [h1, Bool.false_eq_true, if_false, h2, if_false]
      exact strAppend_ne_empty_left d _ hd

/-- C5: with a directory as the variable source and no image key available
(the resolved image is falsy and has no cached submap), get_var fails if
and only if the directory does not hold exactly one .env entry: with zero
.env files it raises the WicError telling the operator to run the
variable-generation command, with two or more it raises the WicError
asking for disambiguation, and with exactly one (an existing file) it
succeeds using that file. -/
theorem c5_dir_env_resolution (bv : BitbakeVars) (fs : FS) (v : String)
    (img : Option String) (c : Bool) (d : String)
    (hvd : bv.vars_dir = some d) (hdne : ¬ d = "")
    (hnf : fs.isFile d = false) (hid : fs.isDir d = true)
    (himg : pyTruthy (pyOrO img bv.default_image) = false)
    (hmem : storeMem bv.store (pyOrO img bv.default_image) = false)
    (henv : ∀ f ∈ envFilesOf fs d, fs.isFile (pjoin d f) = true) :
    (envFilesOf fs d = [] →
      get_var bv fs v img c = .error (.wicError (noEnvMsg d))) ∧
    (∀ f, envFilesOf fs d = [f] →
      ∃ r bv2, get_var bv fs v img c = .ok (r, bv2)) ∧
    (2 ≤ (envFilesOf fs d).length →
      get_var bv fs v img c = .error (.wicError (multiEnvMsg d))) := by
  have hpt : pyTruthy bv.vars_dir = true := by
    rw [hvd]
    simp [pyTruthy, hdne]
  have hsrc : bv.vars_dir.getD "" = d := by rw [hvd]; rfl
  refine ⟨?_, ?_, ?_⟩
  · intro h0
    have hres : resolveSource fs d (pyOrO img bv.default_image)
        = .error (.wicError (noEnvMsg d)) := by
      unfold resolveSource
      simp only [hnf, Bool.false_eq_true, if_false, hid, if_true, himg, h0]
    have hpop : populateIfNeeded bv fs v (pyOrO img bv.default_image) c
        = .error (.wicError (noEnvMsg d)) := by
      unfold populateIfNeeded
      simp only [hmem, Bool.false_eq_true, if_false, hpt, hsrc, hres]
      simp
    unfold get_var
    simp only [hpop]
  · intro f h1
    have hfenv : pyEnds f ".env" = true := by
      have hmemf : f ∈ envFilesOf fs d := by rw [h1]; exact List.mem_singleton.mpr rfl
      exact (List.mem_filter.mp hmemf).2
    have hfne : ¬ f = "" := ne_empty_of_env_suffix f hfenv
    have hjne : ¬ pjoin d f = "" := pjoin_ne_empty d f hdne hfne
    have hisf : fs.isFile (pjoin d f) = true := by
      apply henv
      rw [h1]
      exact List.mem_singleton.mpr rfl
    have hres : resolveSource fs d (pyOrO img bv.default_image)
        = .ok (some (pjoin d f), some (splitextStem f)) := by
      unfold resolveSource
      simp only [hnf, Bool.false_eq_true, if_false, hid, if_true, himg, h1]
    have hpop : ∃ ks, populateIfNeeded bv fs v (pyOrO img bv.default_image) c = .ok ks := by
      unfold populateIfNeeded
      simp only [hmem, Bool.false_eq_true, if_false, hpt, hsrc, hres, Option.getD_some]
      rw [if_neg (show ¬ (true = false) by simp)]
      have hcond : ¬ (pyTruthy (some (pjoin d f)) = false ∨ fs.isFile (pjoin d f) = false) := by
        intro hor
        rcases hor with h | h
        · simp [pyTruthy, hjne] at h
        · simp [hisf] at h
      rw [if_neg hcond]
      split
      · split
        · exact ⟨_, rfl⟩
        · exact ⟨_, rfl⟩
      · exact ⟨_, rfl⟩
    obtain ⟨ks, hpop⟩ := hpop
    unfold get_var
    simp only [hpop]
    exact ⟨_, _, rfl⟩
  · intro h2
    have hres : resolveSource fs d (pyOrO img bv.default_image)
        = .error (.wicError (multiEnvMsg d)) := by
      unfold resolveSource
      simp only [hnf, Bool.false_eq_true, if_false, hid, if_true, himg]
      cases henvs : envFilesOf fs d with
      | nil => rw [henvs] at h2; exact absurd h2 (by simp)
      | cons f1 t =>
        cases t with
        | nil => rw [henvs] at h2; exact absurd h2 (by simp)
        | cons f2 t2 => rfl
    have hpop : populateIfNeeded bv fs v (pyOrO img bv.default_image) c
        = .error (.wicError (multiEnvMsg d)) := by
      unfold populateIfNeeded
      simp only [hmem, Bool.false_eq_true, if_false, hpt, hsrc, hres]
      simp
    unfold get_var
    simp only [hpop]

/-- C5 witness: at the concrete fixture with a directory containing no
.env files, all three branches of the resolution contract hold; in
particular the zero-file branch applies and yields the generation-command
error. -/
theorem c5_dir_env_resolution_witness :
    (envFilesOf fsV0 "/vars" = [] →
      get_var bvSeed fsV0 "A" none true = .error (.wicError (noEnvMsg "/vars"))) ∧
    (∀ f, envFilesOf fsV0 "/vars" = [f] →
      ∃ r bv2, get_var bvSeed fsV0 "A" none true = .ok (r, bv2)) ∧
    (2 ≤ (envFilesOf fsV0 "/vars").length →
      get_var bvSeed fsV0 "A" none true = .error (.wicError (multiEnvMsg "/vars"))) :=
  c5_dir_env_resolution bvSeed fsV0 "A" none true "/vars" (by rfl) (by decide)
    (by rfl) (by rfl) (by rfl) (by rfl) (by decide)

/-- C7: a successful get_var call with cache false leaves the store
without a submap for the resolved image key, so the next get for that key
must repopulate; concretely, a first cache-false call against foo.env
containing A=1 returns 1 and restores the empty store, and a second call
against the mutated file containing A=2 returns 2, making the file change
visible. -/
theorem c7_cache_false_evicts (bv : BitbakeVars) (fs : FS) (v : String)
    (img r0 : Option String) (bv2 : BitbakeVars)
    (hok : get_var bv fs v img false = .ok (r0, bv2)) :
    storeMem bv2.store (pyOrO img bv.default_image) = false ∧
    get_var bvSeed fsV1 "A" (some "foo") false = .ok (some "1", bvSeed) ∧
    get_var bvSeed fsV2 "A" (some "foo") true
      = .ok (some "2",
          { store := [(some "foo", [("A", "2")]), (none, [("A", "2")])],
            default_image := none, vars_dir := some "/vars" }) := by
  refine ⟨?_, rfl, rfl⟩
  simp only [get_var] at hok
  cases hpop : populateIfNeeded bv fs v (pyOrO img bv.default_image) false with
  | error e =>
    rw [hpop] at hok
    exact absurd hok (by simp)
  | ok ks =>
    rw [hpop] at hok
    simp only [Bool.false_eq_true, if_false, Except.ok.injEq, Prod.mk.injEq] at hok
    rw [← hok.2]
    simp only
    by_cases hk : storeMem ks.2 (pyOrO img bv.default_image) = true
    · rw [if_pos hk]
      unfold storeMem
      rw [storeGet_storePop_self]
      rfl
    · rw [if_neg hk]
      by_cases he : pyOrO img bv.default_image = ks.1
      · rw [he]
        unfold storeMem
        rw [storeGet_storePop_self]
        rfl
      · unfold storeMem
        rw [storeGet_storePop_ne _ _ _ he]
        have h4 := storeMem_storeGetD_ne ks.2 ks.1 (pyOrO img bv.default_image) he
        unfold storeMem at h4
        rw [h4]
        simpa [storeMem] using hk

/-- C7 witness: the concrete first call itself instantiates the eviction
theorem: its resolved key foo is absent from the resulting store, and the
two-call file-mutation scenario holds. -/
theorem c7_cache_false_evicts_witness :
    storeMem bvSeed.store (pyOrO (some "foo") bvSeed.default_image) = false ∧
    get_var bvSeed fsV1 "A" (some "foo") false = .ok (some "1", bvSeed) ∧
    get_var bvSeed fsV2 "A" (some "foo") true
      = .ok (some "2",
          { store := [(some "foo", [("A", "2")]), (none, [("A", "2")])],
            default_image := none, vars_dir := some "/vars" }) :=
  c7_cache_false_evicts bvSeed fsV1 "A" (some "foo") (some "1") bvSeed (by rfl)

/-- A get_var call whose resolved image key is cached (present in the
store) returns the cached value and leaves the container unchanged. -/
theorem get_var_cache_hit (bv : BitbakeVars) (fs : FS) (w : String)
    (img : Option String) (m : Submap)
    (hres : pyOrO img bv.default_image = img)
    (hget : storeGet bv.store img = some m) :
    get_var bv fs w img true = .ok (subGet m w, bv) := by
  have hmem : storeMem bv.store img = true := by
    unfold storeMem
    rw [hget]
    rfl
  have hp : populateIfNeeded bv fs w img true = .ok (img, bv.store) := by
    unfold populateIfNeeded
    rw [if_pos hmem]
  simp only [get_var, hres, hp, hmem, if_true, storeGetD, hget]

/-- C4 counterexample: a cache-false call that populates the submap of the
single image key ever populated (foo) installs nothing under the default
key — the resulting store is empty — and a subsequent get with no image
argument does not return the same values but fails with the
disambiguation error, refuting the claim for calls with cache false. -/
theorem c4_no_mirror_counterexample :
    get_var bvSeed fsV3 "A" (some "foo") false = .ok (some "1", bvSeed) ∧
    storeMem bvSeed.store none = false ∧
    get_var bvSeed fsV3 "A" none true = .error (.wicError (multiEnvMsg "/vars")) :=
  ⟨rfl, rfl, rfl⟩

/-- C4 amended: for a get_var call with cache true (the default) that
populates a submap, whenever the resulting store holds exactly one truthy
image key, that submap is also installed under the default none key, and a
subsequent get with no image argument on a container with no default image
returns the same value as a get naming that image key. -/
theorem c4_default_mirror (bv : BitbakeVars) (fs fs2 : FS) (v w : String)
    (img ikey : Option String) (st : Store)
    (hmem : storeMem bv.store (pyOrO img bv.default_image) = false)
    (hok : populateIfNeeded bv fs v (pyOrO img bv.default_image) true = .ok (ikey, st))
    (hcount : truthyKeyCount st = 1)
    (htr : pyTruthy ikey = true) :
    (∃ m, storeGet st none = some m ∧ storeGet st ikey = some m) ∧
    get_var { store := st, default_image := none, vars_dir := bv.vars_dir } fs2 w none true
      = get_var { store := st, default_image := none, vars_dir := bv.vars_dir } fs2 w ikey true := by
  have hne : ¬ (ikey = none) := by
    intro hc
    rw [hc] at htr
    exact absurd htr (by decide)
  have hpart1 : ∃ m, storeGet st none = some m ∧ storeGet st ikey = some m := by
    simp only [populateIfNeeded, hmem, Bool.false_eq_true, if_false] at hok
    by_cases hvt : pyTruthy bv.vars_dir = false
    · rw [if_pos hvt] at hok
      exact absurd hok (by simp)
    · rw [if_neg hvt] at hok
      cases hrs : resolveSource fs (bv.vars_dir.getD "") (pyOrO img bv.default_image) with
      | error e =>
        rw [hrs] at hok
        exact absurd hok (by simp)
      | ok fk =>
        rw [hrs] at hok
        have hok2 : (if pyTruthy fk.1 = false ∨ fs.isFile (fk.1.getD "") = false then
              (Except.error (PyErr.wicError (couldntGetMsg v (pyOrS fk.1 (bv.vars_dir.getD ""))
                (pyOrS fk.2 "<image>"))) : Except PyErr (Option String × Store))
            else
              if truthyKeyCount (List.foldl (fun s l => parse_line s l fk.2) bv.store
                  (fs.readLines (fk.1.getD ""))) = 1 then
                Except.ok (fk.2, storeSet (storeGetD (List.foldl (fun s l => parse_line s l fk.2)
                  bv.store (fs.readLines (fk.1.getD ""))) fk.2).2 none
                  (storeGetD (List.foldl (fun s l => parse_line s l fk.2) bv.store
                    (fs.readLines (fk.1.getD ""))) fk.2).1)
              else Except.ok (fk.2, List.foldl (fun s l => parse_line s l fk.2) bv.store
                (fs.readLines (fk.1.getD "")))) = Except.ok (ikey, st) := hok
        by_cases hfc : (pyTruthy fk.1 = false ∨ fs.isFile (fk.1.getD "") = false)
        · rw [if_pos hfc] at hok2
          exact absurd hok2 (by simp)
        · rw [if_neg hfc] at hok2
          by_cases hc1 : truthyKeyCount (List.foldl (fun s l => parse_line s l fk.2) bv.store
              (fs.readLines (fk.1.getD ""))) = 1
          · rw [if_pos hc1] at hok2
            simp only [Except.ok.injEq, Prod.mk.injEq] at hok2
            obtain ⟨hik, hst⟩ := hok2
            refine ⟨(storeGetD (List.foldl (fun s l => parse_line s l fk.2) bv.store
              (fs.readLines (fk.1.getD ""))) fk.2).1, ?_, ?_⟩
            · rw [← hst]
              exact storeGet_storeSet_self _ _ _
            · rw [← hst]
              rw [storeGet_storeSet_ne _ _ _ _ hne]
              rw [← hik]
              exact storeGetD_get_self _ _
          · rw [if_neg hc1] at hok2
            simp only [Except.ok.injEq, Prod.mk.injEq] at hok2
            rw [← hok2.2] at hcount
            exact absurd hcount hc1
  refine ⟨hpart1, ?_⟩
  obtain ⟨m, hn, hi⟩ := hpart1
  rw [get_var_cache_hit { store := st, default_image := none, vars_dir := bv.vars_dir }
      fs2 w none m (by rfl) hn,
    get_var_cache_hit { store := st, default_image := none, vars_dir := bv.vars_dir }
      fs2 w ikey m (by simp [pyOrO, htr]) hi]

/-- C4 witness: the concrete single-env-file population with cache true
mirrors foo to the default key, and a default get equals a get naming
foo. -/
theorem c4_default_mirror_witness :
    (∃ m, storeGet [(some "foo", [("A", "1")]), (none, [("A", "1")])] none = some m ∧
      storeGet [(some "foo", [("A", "1")]), (none, [("A", "1")])] (some "foo") = some m) ∧
    get_var { store := [(some "foo", [("A", "1")]), (none, [("A", "1")])],
              default_image := none, vars_dir := bvSeed.vars_dir } fsV1 "A" none true
      = get_var { store := [(some "foo", [("A", "1")]), (none, [("A", "1")])],
                  default_image := none, vars_dir := bvSeed.vars_dir } fsV1 "A" (some "foo") true :=
  c4_default_mirror bvSeed fsV1 fsV1 "A" "A" (some "foo") (some "foo")
    [(some "foo", [("A", "1")]), (none, [("A", "1")])]
    (by rfl) (by rfl) (by rfl) (by rfl)

/-- C9: syntactic defects of mkdirhier in the embedded src/bb/utils.py
text: the function header binds the single parameter path, the guard line
references the name directory and does not end with the colon a Python
compound if-statement requires (so the module fails to parse at load
time), the module imports only os (never errno) although the exception
handler references errno.EEXIST, and the name directory is never bound at
the top level of the module; hence no call to mkdirhier can ever run. -/
theorem c9_mkdirhier_broken :
    bbUtilsLines.get? 6 = some mkdirhierDefLine ∧
    mkdirhierDefLine = "def mkdirhier(path):" ∧
    bbUtilsLines.get? 16 = some mkdirhierGuardLine ∧
    pyEnds mkdirhierGuardLine ":" = false ∧
    pyIn "directory" mkdirhierGuardLine = true ∧
    pyIn "(path)" mkdirhierDefLine = true ∧
    (bbUtilsLines.filter (fun l => pyStarts l "import")) = ["import os"] ∧
    (bbUtilsLines.any (fun l => pyIn "import errno" l)) = false ∧
    bbUtilsLines.get? 21 = some mkdirhierHandlerLine ∧
    pyIn "errno.EEXIST" mkdirhierHandlerLine = true ∧
    (bbUtilsLines.any (fun l => pyStarts l "directory")) = false := by
  refine ⟨rfl, rfl, rfl, rfl, ?_, ?_, rfl, ?_, rfl, ?_, ?_⟩ <;> decide
